import Mathlib

/-!
Verification of the store environment-variable configuration loader
(`graph/src/env/store.rs`).

The development shallowly embeds the Rust source:

* `f64` values are modelled by `GraphEnv.F64`: NaN, the two infinities, or a
  finite value represented as an exact (unnormalised) fraction.  The source
  only compares parsed values against the literals `0.0`, `1.0` and `1.01`,
  so exact rational arithmetic with IEEE comparison semantics (every
  comparison involving NaN is false) is a faithful model of those
  comparisons; binary rounding of decimal literals is abstracted away.
* Machine integers (`u64`, `u32`, `usize`) are `Nat` with explicit `2 ^ w`
  bounds where the source can overflow.
* `std::time::Duration` is modelled as a nanosecond count, and
  `chrono::Duration` as a millisecond count.
* The `Envconfig` derive machinery (reading a variable, falling back to the
  declared default string, wrapping parse failures with the variable name)
  is not part of the source file here; it is modelled from the spec, see
  `GraphEnv.loadField` and `GraphEnv.loadOptional`.
-/

deriving instance DecidableEq for Except

namespace GraphEnv

/-- An exact, not necessarily normalised fraction `num / den`.  Used as the
value carrier for finite `f64` values; the parser only ever builds fractions
with a positive power-of-ten denominator. -/
structure Frac where
  num : Int
  den : Nat
  deriving DecidableEq, Repr

/-- Model of Rust `f64` as far as the source observes it: NaN, infinities,
or an exact finite value. -/
inductive F64 where
  | nan : F64
  | posInf : F64
  | negInf : F64
  | fin : Frac → F64
  deriving DecidableEq, Repr

/-- IEEE-754 `<` on the model: any comparison with NaN is false; otherwise
the order is the usual one on the extended rationals. -/
def F64.lt : F64 → F64 → Bool
  | .nan, _ => false
  | _, .nan => false
  | .negInf, .negInf => false
  | .negInf, _ => true
  | _, .negInf => false
  | .posInf, _ => false
  | .fin _, .posInf => true
  | .fin a, .fin b => decide (a.num * (b.den : Int) < b.num * (a.den : Int))

/-- IEEE-754 `<=` on the model: false whenever NaN is involved, and the
negation of the swapped `<` otherwise. -/
def F64.le (x y : F64) : Bool :=
  match x, y with
  | .nan, _ => false
  | _, .nan => false
  | x, y => !(F64.lt y x)

/-- Negation of an `f64` value (used for a leading `-` sign). -/
def F64.neg : F64 → F64
  | .nan => .nan
  | .posInf => .negInf
  | .negInf => .posInf
  | .fin a => .fin ⟨-a.num, a.den⟩

/-- All characters are decimal digits. -/
def allDigits (l : List Char) : Bool :=
  l.all fun c => c.isDigit

/-- Value of a digit string read in base 10. -/
def digitsToNat (l : List Char) : Nat :=
  l.foldl (fun a c => a * 10 + (c.toNat - 48)) 0

/-- Split a character list at the first dot, if any. -/
def splitDot : List Char → List Char × Option (List Char)
  | [] => ([], none)
  | c :: cs =>
    if c = '.' then ([], some cs)
    else
      let r := splitDot cs
      (c :: r.1, r.2)

/-- Lower-case every character. -/
def lowerAll (l : List Char) : List Char :=
  l.map fun c => c.toLower

/-- Parse an unsigned `f64` literal: `nan`, `inf`/`infinity`
(case-insensitive), or decimal digits with an optional fractional part.
Mirrors the unsigned part of `str::parse::<f64>`, with the decimal value
kept exact. -/
def parseF64Mag (l : List Char) : Option F64 :=
  let low := lowerAll l
  if low = ['n', 'a', 'n'] then some .nan
  else if low = ['i', 'n', 'f'] || low = ['i', 'n', 'f', 'i', 'n', 'i', 't', 'y'] then
    some .posInf
  else
    let p := splitDot l
    match p.2 with
    | none =>
      if !p.1.isEmpty && allDigits p.1 then some (.fin ⟨digitsToNat p.1, 1⟩) else none
    | some fp =>
      if (!p.1.isEmpty || !fp.isEmpty) && allDigits p.1 && allDigits fp then
        some (.fin ⟨digitsToNat p.1 * 10 ^ fp.length + digitsToNat fp, 10 ^ fp.length⟩)
      else none

/-- Parse an `f64` literal with an optional sign, as `s.parse::<f64>()`
does in the source. -/
def parseF64 (s : String) : Option F64 :=
  match s.data with
  | '-' :: rest => (parseF64Mag rest).map F64.neg
  | '+' :: rest => parseF64Mag rest
  | l => parseF64Mag l

/-- The error taxonomy of the spec for a rejected field value. -/
inductive ErrKind where
  | malformedValue : ErrKind
  | outOfRange : ErrKind
  | missingRequired : ErrKind
  deriving DecidableEq, Repr

/-- Modelled from the spec: a `ConfigError` "describes which variable,
which raw value, and why it was rejected".  The concrete error type lives
in the envconfig machinery outside the source file here. -/
structure ConfigError where
  name : String
  raw : String
  kind : ErrKind
  deriving DecidableEq, Repr

/-- Parse an unsigned decimal integer strictly below `bound` (an optional
leading `+` is allowed, as for the unsigned `from_str` of Rust); anything else,
including overflow, is a malformed value. -/
def parseNatBounded (bound : Nat) (s : String) : Except ErrKind Nat :=
  let l := match s.data with
    | '+' :: rest => rest
    | l => l
  if !l.isEmpty && allDigits l then
    let n := digitsToNat l
    if n < bound then .ok n else .error .malformedValue
  else .error .malformedValue

/-- Rust `u64::from_str`. -/
def parseU64 : String → Except ErrKind Nat :=
  parseNatBounded (2 ^ 64)

/-- Rust `u32::from_str`. -/
def parseU32 : String → Except ErrKind Nat :=
  parseNatBounded (2 ^ 32)

/-- Rust `usize::from_str` on a 64-bit target. -/
def parseUsize : String → Except ErrKind Nat :=
  parseNatBounded (2 ^ 64)

/-- Rust `bool::from_str`: exactly `true` or `false`. -/
def parseBool (s : String) : Except ErrKind Bool :=
  if s = "true" then .ok true
  else if s = "false" then .ok false
  else .error .malformedValue

/-- Wrapper type for the `ORDER_BY_BLOCK_RANGE` flag.  The wrapped `Bool`
models the tuple field `.0` of the Rust `EnvVarBoolean`. -/
structure EnvVarBoolean where
  val : Bool
  deriving DecidableEq, Repr

/-- Modelled from the spec: the parser of `EnvVarBoolean` is declared
outside the source file here; the spec only calls it a boolean parse, so it is
modelled as the plain boolean parse. -/
def parseEnvVarBoolean (s : String) : Except ErrKind EnvVarBoolean :=
  (parseBool s).map EnvVarBoolean.mk

/-- The validated scalar wrapping a fraction in `[0, 1]`; `val` models the
tuple field `.0` of the Rust `ZeroToOneF64(f64)`. -/
structure ZeroToOneF64 where
  val : F64
  deriving DecidableEq, Repr

/-- `impl FromStr for ZeroToOneF64`: parse an `f64`, then reject it when
`f < 0.0 || f > 1.0` (an IEEE comparison, written here with `F64.lt`). -/
def ZeroToOneF64.from_str (s : String) : Except ErrKind ZeroToOneF64 :=
  match parseF64 s with
  | none => .error .malformedValue
  | some f =>
    if F64.lt f (.fin ⟨0, 1⟩) || F64.lt (.fin ⟨1, 1⟩) f then .error .outOfRange
    else .ok ⟨f⟩

/-- The validated scalar for the history slack factor; `val` models the
tuple field `.0` of the Rust `HistorySlackF64(f64)`. -/
structure HistorySlackF64 where
  val : F64
  deriving DecidableEq, Repr

/-- `impl FromStr for HistorySlackF64`: parse an `f64`, then reject it when
`f < 1.01`. -/
def HistorySlackF64.from_str (s : String) : Except ErrKind HistorySlackF64 :=
  match parseF64 s with
  | none => .error .malformedValue
  | some f =>
    if F64.lt f (.fin ⟨101, 100⟩) then .error .outOfRange
    else .ok ⟨f⟩

/-- An environment: the injectable key-value lookup abstraction of the
spec,
mapping a variable name to an optional raw string. -/
abbrev Env := String → Option String

/-- Modelled from the spec: per-field conversion by the envconfig
machinery (which is outside the source file here).  A present raw value is
parsed; an absent one falls back to the declared default string, run
through the same parser; an absent value without a default is the
MissingRequired taxonomy case.  A rejected value yields an error naming
the variable and the rejected raw string. -/
def loadField {α : Type} (env : Env) (nm : String) (dflt : Option String)
    (p : String → Except ErrKind α) : Except ConfigError α :=
  match env nm with
  | some s => (p s).mapError fun k => ⟨nm, s, k⟩
  | none =>
    match dflt with
    | some d => (p d).mapError fun k => ⟨nm, d, k⟩
    | none => .error ⟨nm, "", .missingRequired⟩

/-- Modelled from the spec: an optional field without a default resolves
to `none` when its variable is absent, and to the parsed value when
present. -/
def loadOptional {α : Type} (env : Env) (nm : String)
    (p : String → Except ErrKind α) : Except ConfigError (Option α) :=
  match env nm with
  | some s => ((p s).map some).mapError fun k => ⟨nm, s, k⟩
  | none => .ok none

/-- `GRAPH_CHAIN_HEAD_WATCHER_TIMEOUT`, default `"30"`. -/
def loadChainHeadWatcherTimeout (env : Env) : Except ConfigError Nat :=
  loadField env "GRAPH_CHAIN_HEAD_WATCHER_TIMEOUT" (some "30") parseU64

/-- `GRAPH_QUERY_STATS_REFRESH_INTERVAL`, default `"300"`. -/
def loadQueryStatsRefreshInterval (env : Env) : Except ConfigError Nat :=
  loadField env "GRAPH_QUERY_STATS_REFRESH_INTERVAL" (some "300") parseU64

/-- `GRAPH_SCHEMA_CACHE_TTL`, optional, no default. -/
def loadSchemaCacheTtl (env : Env) : Except ConfigError (Option Nat) :=
  loadOptional env "GRAPH_SCHEMA_CACHE_TTL" parseU64

/-- `GRAPH_EXTRA_QUERY_PERMITS`, default `"0"`. -/
def loadExtraQueryPermits (env : Env) : Except ConfigError Nat :=
  loadField env "GRAPH_EXTRA_QUERY_PERMITS" (some "0") parseUsize

/-- `LARGE_NOTIFICATION_CLEANUP_INTERVAL`, default `"300"`. -/
def loadLargeNotifCleanupInterval (env : Env) : Except ConfigError Nat :=
  loadField env "LARGE_NOTIFICATION_CLEANUP_INTERVAL" (some "300") parseU64

/-- `GRAPH_NOTIFICATION_BROADCAST_TIMEOUT`, default `"60"`. -/
def loadNotifBroadcastTimeout (env : Env) : Except ConfigError Nat :=
  loadField env "GRAPH_NOTIFICATION_BROADCAST_TIMEOUT" (some "60") parseU64

/-- `TYPEA_BATCH_SIZE`, default `"150"`. -/
def loadTypeaBatchSize (env : Env) : Except ConfigError Nat :=
  loadField env "TYPEA_BATCH_SIZE" (some "150") parseUsize

/-- `TYPED_CHILDREN_SET_SIZE`, default `"150"`. -/
def loadTypedChildrenSetSize (env : Env) : Except ConfigError Nat :=
  loadField env "TYPED_CHILDREN_SET_SIZE" (some "150") parseUsize

/-- `ORDER_BY_BLOCK_RANGE`, default `"true"`. -/
def loadOrderByBlockRange (env : Env) : Except ConfigError EnvVarBoolean :=
  loadField env "ORDER_BY_BLOCK_RANGE" (some "true") parseEnvVarBoolean

/-- `GRAPH_REMOVE_UNUSED_INTERVAL`, default `"360"`. -/
def loadRemoveUnusedInterval (env : Env) : Except ConfigError Nat :=
  loadField env "GRAPH_REMOVE_UNUSED_INTERVAL" (some "360") parseU64

/-- `GRAPH_STORE_RECENT_BLOCKS_CACHE_CAPACITY`, default `"10"`. -/
def loadRecentBlocksCacheCapacity (env : Env) : Except ConfigError Nat :=
  loadField env "GRAPH_STORE_RECENT_BLOCKS_CACHE_CAPACITY" (some "10") parseUsize

/-- `GRAPH_STORE_CONNECTION_TIMEOUT`, default `"5000"` (milliseconds). -/
def loadConnectionTimeout (env : Env) : Except ConfigError Nat :=
  loadField env "GRAPH_STORE_CONNECTION_TIMEOUT" (some "5000") parseU64

/-- `GRAPH_STORE_CONNECTION_MIN_IDLE`, optional, no default. -/
def loadConnectionMinIdle (env : Env) : Except ConfigError (Option Nat) :=
  loadOptional env "GRAPH_STORE_CONNECTION_MIN_IDLE" parseU32

/-- `GRAPH_STORE_CONNECTION_IDLE_TIMEOUT`, default `"600"`. -/
def loadConnectionIdleTimeout (env : Env) : Except ConfigError Nat :=
  loadField env "GRAPH_STORE_CONNECTION_IDLE_TIMEOUT" (some "600") parseU64

/-- `GRAPH_STORE_WRITE_QUEUE`, default `"5"`. -/
def loadWriteQueueSize (env : Env) : Except ConfigError Nat :=
  loadField env "GRAPH_STORE_WRITE_QUEUE" (some "5") parseUsize

/-- `GRAPH_STORE_BATCH_TARGET_DURATION`, default `"180"`. -/
def loadBatchTargetDuration (env : Env) : Except ConfigError Nat :=
  loadField env "GRAPH_STORE_BATCH_TARGET_DURATION" (some "180") parseU64

/-- `GRAPH_STORE_HISTORY_REBUILD_THRESHOLD`, default `"0.5"`. -/
def loadRebuildThreshold (env : Env) : Except ConfigError ZeroToOneF64 :=
  loadField env "GRAPH_STORE_HISTORY_REBUILD_THRESHOLD" (some "0.5") ZeroToOneF64.from_str

/-- `GRAPH_STORE_HISTORY_DELETE_THRESHOLD`, default `"0.05"`. -/
def loadDeleteThreshold (env : Env) : Except ConfigError ZeroToOneF64 :=
  loadField env "GRAPH_STORE_HISTORY_DELETE_THRESHOLD" (some "0.05") ZeroToOneF64.from_str

/-- `GRAPH_STORE_HISTORY_SLACK_FACTOR`, default `"1.2"`. -/
def loadHistorySlackFactor (env : Env) : Except ConfigError HistorySlackF64 :=
  loadField env "GRAPH_STORE_HISTORY_SLACK_FACTOR" (some "1.2") HistorySlackF64.from_str

/-- `GRAPH_STORE_WRITE_BATCH_DURATION`, default `"300"`. -/
def loadWriteBatchDuration (env : Env) : Except ConfigError Nat :=
  loadField env "GRAPH_STORE_WRITE_BATCH_DURATION" (some "300") parseU64

/-- `GRAPH_STORE_WRITE_BATCH_SIZE`, default `"10000"` (kilobytes). -/
def loadWriteBatchSize (env : Env) : Except ConfigError Nat :=
  loadField env "GRAPH_STORE_WRITE_BATCH_SIZE" (some "10000") parseUsize

/-- `GRAPH_STORE_CREATE_GIN_INDEXES`, default `"false"`. -/
def loadCreateGinIndexes (env : Env) : Except ConfigError Bool :=
  loadField env "GRAPH_STORE_CREATE_GIN_INDEXES" (some "false") parseBool

/-- `GRAPH_STORE_USE_BRIN_FOR_ALL_QUERY_TYPES`, default `"false"`. -/
def loadUseBrinForAllQueryTypes (env : Env) : Except ConfigError Bool :=
  loadField env "GRAPH_STORE_USE_BRIN_FOR_ALL_QUERY_TYPES" (some "false") parseBool

/-- `GRAPH_STORE_DISABLE_BLOCK_CACHE_FOR_LOOKUP`, default `"false"`. -/
def loadDisableBlockCacheForLookup (env : Env) : Except ConfigError Bool :=
  loadField env "GRAPH_STORE_DISABLE_BLOCK_CACHE_FOR_LOOKUP" (some "false") parseBool

/-- `GRAPH_STORE_LAST_ROLLUP_FROM_POI`, default `"false"`. -/
def loadLastRollupFromPoi (env : Env) : Except ConfigError Bool :=
  loadField env "GRAPH_STORE_LAST_ROLLUP_FROM_POI" (some "false") parseBool

/-- `GRAPH_STORE_INSERT_EXTRA_COLS`, default `"0"`. -/
def loadInsertExtraCols (env : Env) : Except ConfigError Nat :=
  loadField env "GRAPH_STORE_INSERT_EXTRA_COLS" (some "0") parseUsize

/-- `GRAPH_STORE_FDW_FETCH_SIZE`, default `"10000"`. -/
def loadFdwFetchSize (env : Env) : Except ConfigError Nat :=
  loadField env "GRAPH_STORE_FDW_FETCH_SIZE" (some "10000") parseUsize

/-- The raw parsed field set `InnerStore` of the source (field names and
declaration order as in the Rust struct; `u64`/`usize`/`u32` become `Nat`
bounded by their parsers). -/
structure InnerStore where
  chain_head_watcher_timeout_in_secs : Nat
  query_stats_refresh_interval_in_secs : Nat
  schema_cache_ttl : Option Nat
  extra_query_permits : Nat
  large_notification_cleanup_interval_in_secs : Nat
  notification_broadcast_timeout_in_secs : Nat
  typea_batch_size : Nat
  typed_children_set_size : Nat
  order_by_block_range : EnvVarBoolean
  remove_unused_interval_in_minutes : Nat
  recent_blocks_cache_capacity : Nat
  connection_timeout_in_millis : Nat
  connection_min_idle : Option Nat
  connection_idle_timeout_in_secs : Nat
  write_queue_size : Nat
  batch_target_duration_in_secs : Nat
  rebuild_threshold : ZeroToOneF64
  delete_threshold : ZeroToOneF64
  history_slack_factor : HistorySlackF64
  write_batch_duration_in_secs : Nat
  write_batch_size : Nat
  create_gin_indexes : Bool
  use_brin_for_all_query_types : Bool
  disable_block_cache_for_lookup : Bool
  last_rollup_from_poi : Bool
  insert_extra_cols : Nat
  fdw_fetch_size : Nat
  deriving DecidableEq, Repr

/-- Modelled from the spec: `Envconfig::init_from_env` for `InnerStore` —
resolve every field in declaration order, aborting at the first error. -/
def InnerStore.load (env : Env) : Except ConfigError InnerStore :=
  Except.bind (loadChainHeadWatcherTimeout env) fun a1 =>
  Except.bind (loadQueryStatsRefreshInterval env) fun a2 =>
  Except.bind (loadSchemaCacheTtl env) fun a3 =>
  Except.bind (loadExtraQueryPermits env) fun a4 =>
  Except.bind (loadLargeNotifCleanupInterval env) fun a5 =>
  Except.bind (loadNotifBroadcastTimeout env) fun a6 =>
  Except.bind (loadTypeaBatchSize env) fun a7 =>
  Except.bind (loadTypedChildrenSetSize env) fun a8 =>
  Except.bind (loadOrderByBlockRange env) fun a9 =>
  Except.bind (loadRemoveUnusedInterval env) fun a10 =>
  Except.bind (loadRecentBlocksCacheCapacity env) fun a11 =>
  Except.bind (loadConnectionTimeout env) fun a12 =>
  Except.bind (loadConnectionMinIdle env) fun a13 =>
  Except.bind (loadConnectionIdleTimeout env) fun a14 =>
  Except.bind (loadWriteQueueSize env) fun a15 =>
  Except.bind (loadBatchTargetDuration env) fun a16 =>
  Except.bind (loadRebuildThreshold env) fun a17 =>
  Except.bind (loadDeleteThreshold env) fun a18 =>
  Except.bind (loadHistorySlackFactor env) fun a19 =>
  Except.bind (loadWriteBatchDuration env) fun a20 =>
  Except.bind (loadWriteBatchSize env) fun a21 =>
  Except.bind (loadCreateGinIndexes env) fun a22 =>
  Except.bind (loadUseBrinForAllQueryTypes env) fun a23 =>
  Except.bind (loadDisableBlockCacheForLookup env) fun a24 =>
  Except.bind (loadLastRollupFromPoi env) fun a25 =>
  Except.bind (loadInsertExtraCols env) fun a26 =>
  Except.bind (loadFdwFetchSize env) fun a27 =>
  Except.ok ⟨a1, a2, a3, a4, a5, a6, a7, a8, a9, a10, a11, a12, a13, a14,
    a15, a16, a17, a18, a19, a20, a21, a22, a23, a24, a25, a26, a27⟩

/-- `std::time::Duration`, modelled as a nanosecond count. -/
abbrev Duration := Nat

/-- `Duration::from_secs`. -/
def Duration.from_secs (s : Nat) : Duration :=
  s * 1000000000

/-- `Duration::from_millis`. -/
def Duration.from_millis (ms : Nat) : Duration :=
  ms * 1000000

/-- `chrono::Duration`, modelled as a millisecond count. -/
abbrev ChronoDuration := Int

/-- `chrono::Duration::try_minutes` of the chrono 0.4 crate: the duration
is representable only within the documented chrono bounds of plus or
minus `i64::MAX` milliseconds; outside them the result is `None`, and the
panicking wrapper `chrono::Duration::minutes` used by the source has no
normal result there.  (At every whole-minute input this millisecond-level
bound agrees exactly with the seconds-granularity check of the crate.) -/
def ChronoDuration.try_minutes (m : Int) : Option ChronoDuration :=
  if -(2 ^ 63 - 1) ≤ m * 60000 ∧ m * 60000 ≤ 2 ^ 63 - 1 then
    some (m * 60000)
  else none

/-- The Rust cast `u64 as i64`: twos-complement wrap into the `i64`
range. -/
def u64ToI64 (n : Nat) : Int :=
  if n < 2 ^ 63 then (n : Int) else (n : Int) - 2 ^ 64

/-- The assembled configuration `EnvVarsStore` of the source (field order
as in the Rust struct). -/
structure EnvVarsStore where
  chain_head_watcher_timeout : Duration
  query_stats_refresh_interval : Duration
  schema_cache_ttl : Duration
  extra_query_permits : Nat
  large_notification_cleanup_interval : Duration
  notification_broadcast_timeout : Duration
  typea_batch_size : Nat
  typed_children_set_size : Nat
  order_by_block_range : Bool
  remove_unused_interval : ChronoDuration
  recent_blocks_cache_capacity : Nat
  connection_timeout : Duration
  connection_min_idle : Option Nat
  connection_idle_timeout : Duration
  write_queue_size : Nat
  batch_target_duration : Duration
  rebuild_threshold : F64
  delete_threshold : F64
  history_slack_factor : F64
  write_batch_duration : Duration
  write_batch_size : Nat
  create_gin_indexes : Bool
  use_brin_for_all_query_types : Bool
  disable_block_cache_for_lookup : Bool
  last_rollup_from_poi : Bool
  insert_extra_cols : Nat
  fdw_fetch_size : Nat
  deriving DecidableEq, Repr

/-- `impl From<InnerStore> for EnvVarsStore`.  The source computes
`2 * x.query_stats_refresh_interval_in_secs` (only when the schema-cache
TTL is absent) and `x.write_batch_size * 1_000` with unchecked machine
arithmetic (an overflowing multiplication has no normal result; debug
builds panic), and calls `chrono::Duration::minutes` on the cast
remove-unused interval, which panics when that duration exceeds the
chrono bounds.  All three abnormal exits are rendered as `none`. -/
def EnvVarsStore.fromInner (x : InnerStore) : Option EnvVarsStore :=
  if (x.schema_cache_ttl = none ∧
        2 ^ 64 ≤ 2 * x.query_stats_refresh_interval_in_secs) ∨
      2 ^ 64 ≤ x.write_batch_size * 1000 then
    none
  else
    match ChronoDuration.try_minutes (u64ToI64 x.remove_unused_interval_in_minutes) with
    | none => none
    | some rui =>
      some
      { chain_head_watcher_timeout :=
          Duration.from_secs x.chain_head_watcher_timeout_in_secs
        query_stats_refresh_interval :=
          Duration.from_secs x.query_stats_refresh_interval_in_secs
        schema_cache_ttl :=
          match x.schema_cache_ttl with
          | some t => Duration.from_secs t
          | none => Duration.from_secs (2 * x.query_stats_refresh_interval_in_secs)
        extra_query_permits := x.extra_query_permits
        large_notification_cleanup_interval :=
          Duration.from_secs x.large_notification_cleanup_interval_in_secs
        notification_broadcast_timeout :=
          Duration.from_secs x.notification_broadcast_timeout_in_secs
        typea_batch_size := x.typea_batch_size
        typed_children_set_size := x.typed_children_set_size
        order_by_block_range := x.order_by_block_range.val
        remove_unused_interval := rui
        recent_blocks_cache_capacity := x.recent_blocks_cache_capacity
        connection_timeout := Duration.from_millis x.connection_timeout_in_millis
        connection_min_idle := x.connection_min_idle
        connection_idle_timeout :=
          Duration.from_secs x.connection_idle_timeout_in_secs
        write_queue_size := x.write_queue_size
        batch_target_duration := Duration.from_secs x.batch_target_duration_in_secs
        rebuild_threshold := x.rebuild_threshold.val
        delete_threshold := x.delete_threshold.val
        history_slack_factor := x.history_slack_factor.val
        write_batch_duration := Duration.from_secs x.write_batch_duration_in_secs
        write_batch_size := x.write_batch_size * 1000
        create_gin_indexes := x.create_gin_indexes
        use_brin_for_all_query_types := x.use_brin_for_all_query_types
        disable_block_cache_for_lookup := x.disable_block_cache_for_lookup
        last_rollup_from_poi := x.last_rollup_from_poi
        insert_extra_cols := x.insert_extra_cols
        fdw_fetch_size := x.fdw_fetch_size }

/-- `impl fmt::Debug for EnvVarsStore`: the formatter writes the constant
string `env vars` and never any field value. -/
def EnvVarsStore.debugFmt (_ : EnvVarsStore) : String :=
  "env vars"

/-- The error component of a field resolution, if any. -/
def errOf {α : Type} : Except ConfigError α → Option ConfigError
  | .error e => some e
  | .ok _ => none

/-- Left-biased choice on optional errors. -/
def orE : Option ConfigError → Option ConfigError → Option ConfigError
  | some e, _ => some e
  | none, b => b

/-- The fail-fast characterisation from the spec: the first error encountered
when the fields are resolved in declaration order. -/
def firstConfigError (env : Env) : Option ConfigError :=
  orE (errOf (loadChainHeadWatcherTimeout env))
  (orE (errOf (loadQueryStatsRefreshInterval env))
  (orE (errOf (loadSchemaCacheTtl env))
  (orE (errOf (loadExtraQueryPermits env))
  (orE (errOf (loadLargeNotifCleanupInterval env))
  (orE (errOf (loadNotifBroadcastTimeout env))
  (orE (errOf (loadTypeaBatchSize env))
  (orE (errOf (loadTypedChildrenSetSize env))
  (orE (errOf (loadOrderByBlockRange env))
  (orE (errOf (loadRemoveUnusedInterval env))
  (orE (errOf (loadRecentBlocksCacheCapacity env))
  (orE (errOf (loadConnectionTimeout env))
  (orE (errOf (loadConnectionMinIdle env))
  (orE (errOf (loadConnectionIdleTimeout env))
  (orE (errOf (loadWriteQueueSize env))
  (orE (errOf (loadBatchTargetDuration env))
  (orE (errOf (loadRebuildThreshold env))
  (orE (errOf (loadDeleteThreshold env))
  (orE (errOf (loadHistorySlackFactor env))
  (orE (errOf (loadWriteBatchDuration env))
  (orE (errOf (loadWriteBatchSize env))
  (orE (errOf (loadCreateGinIndexes env))
  (orE (errOf (loadUseBrinForAllQueryTypes env))
  (orE (errOf (loadDisableBlockCacheForLookup env))
  (orE (errOf (loadLastRollupFromPoi env))
  (orE (errOf (loadInsertExtraCols env))
  (errOf (loadFdwFetchSize env)))))))))))))))))))))))))))

/-- Whether an `Except` value is an error. -/
def isErrB {ε α : Type} : Except ε α → Bool
  | .error _ => true
  | .ok _ => false

/-- The recognised-variable table: whether raw value `s` for variable `nm`
fails its declared type/range check (false for unrecognised variables). -/
def varFails (nm s : String) : Bool :=
  if nm = "GRAPH_CHAIN_HEAD_WATCHER_TIMEOUT" then isErrB (parseU64 s)
  else if nm = "GRAPH_QUERY_STATS_REFRESH_INTERVAL" then isErrB (parseU64 s)
  else if nm = "GRAPH_SCHEMA_CACHE_TTL" then isErrB (parseU64 s)
  else if nm = "GRAPH_EXTRA_QUERY_PERMITS" then isErrB (parseUsize s)
  else if nm = "LARGE_NOTIFICATION_CLEANUP_INTERVAL" then isErrB (parseU64 s)
  else if nm = "GRAPH_NOTIFICATION_BROADCAST_TIMEOUT" then isErrB (parseU64 s)
  else if nm = "TYPEA_BATCH_SIZE" then isErrB (parseUsize s)
  else if nm = "TYPED_CHILDREN_SET_SIZE" then isErrB (parseUsize s)
  else if nm = "ORDER_BY_BLOCK_RANGE" then isErrB (parseEnvVarBoolean s)
  else if nm = "GRAPH_REMOVE_UNUSED_INTERVAL" then isErrB (parseU64 s)
  else if nm = "GRAPH_STORE_RECENT_BLOCKS_CACHE_CAPACITY" then isErrB (parseUsize s)
  else if nm = "GRAPH_STORE_CONNECTION_TIMEOUT" then isErrB (parseU64 s)
  else if nm = "GRAPH_STORE_CONNECTION_MIN_IDLE" then isErrB (parseU32 s)
  else if nm = "GRAPH_STORE_CONNECTION_IDLE_TIMEOUT" then isErrB (parseU64 s)
  else if nm = "GRAPH_STORE_WRITE_QUEUE" then isErrB (parseUsize s)
  else if nm = "GRAPH_STORE_BATCH_TARGET_DURATION" then isErrB (parseU64 s)
  else if nm = "GRAPH_STORE_HISTORY_REBUILD_THRESHOLD" then isErrB (ZeroToOneF64.from_str s)
  else if nm = "GRAPH_STORE_HISTORY_DELETE_THRESHOLD" then isErrB (ZeroToOneF64.from_str s)
  else if nm = "GRAPH_STORE_HISTORY_SLACK_FACTOR" then isErrB (HistorySlackF64.from_str s)
  else if nm = "GRAPH_STORE_WRITE_BATCH_DURATION" then isErrB (parseU64 s)
  else if nm = "GRAPH_STORE_WRITE_BATCH_SIZE" then isErrB (parseUsize s)
  else if nm = "GRAPH_STORE_CREATE_GIN_INDEXES" then isErrB (parseBool s)
  else if nm = "GRAPH_STORE_USE_BRIN_FOR_ALL_QUERY_TYPES" then isErrB (parseBool s)
  else if nm = "GRAPH_STORE_DISABLE_BLOCK_CACHE_FOR_LOOKUP" then isErrB (parseBool s)
  else if nm = "GRAPH_STORE_LAST_ROLLUP_FROM_POI" then isErrB (parseBool s)
  else if nm = "GRAPH_STORE_INSERT_EXTRA_COLS" then isErrB (parseUsize s)
  else if nm = "GRAPH_STORE_FDW_FETCH_SIZE" then isErrB (parseUsize s)
  else false

/-- The empty environment: every variable absent, so every field takes its
default. -/
def envEmpty : Env := fun _ => none

/-- An environment with only the query-stats refresh interval set,
explicitly, to 100 seconds. -/
def envRefresh100 : Env := fun nm =>
  if nm = "GRAPH_QUERY_STATS_REFRESH_INTERVAL" then some "100" else none

/-- An environment with two malformed values, in declaration order
`TYPEA_BATCH_SIZE` before `TYPED_CHILDREN_SET_SIZE`. -/
def envTwoBad : Env := fun nm =>
  if nm = "TYPEA_BATCH_SIZE" then some "abc"
  else if nm = "TYPED_CHILDREN_SET_SIZE" then some "xyz" else none

/-- An environment with an out-of-range history rebuild threshold. -/
def envBadThreshold : Env := fun nm =>
  if nm = "GRAPH_STORE_HISTORY_REBUILD_THRESHOLD" then some "1.5" else none

/-- The `InnerStore` resolved from `envEmpty` (every field at its
default). -/
def innerDefault : InnerStore :=
  ⟨30, 300, none, 0, 300, 60, 150, 150, ⟨true⟩, 360, 10, 5000, none, 600,
    5, 180, ⟨.fin ⟨5, 10⟩⟩, ⟨.fin ⟨5, 100⟩⟩, ⟨.fin ⟨12, 10⟩⟩, 300, 10000,
    false, false, false, false, 0, 10000⟩

/-- The `InnerStore` resolved from `envRefresh100`. -/
def innerRefresh100 : InnerStore :=
  ⟨30, 100, none, 0, 300, 60, 150, 150, ⟨true⟩, 360, 10, 5000, none, 600,
    5, 180, ⟨.fin ⟨5, 10⟩⟩, ⟨.fin ⟨5, 100⟩⟩, ⟨.fin ⟨12, 10⟩⟩, 300, 10000,
    false, false, false, false, 0, 10000⟩

/-- A field set whose write-batch size would overflow `usize` when
multiplied by 1000. -/
def innerBigBatch : InnerStore :=
  { innerDefault with write_batch_size := 2 ^ 64 }

/-- A field set satisfying both multiplication bounds whose remove-unused
interval exceeds the chrono duration range: `2 ^ 62` minutes is far above
the chrono maximum of about `1.5 * 10 ^ 14` minutes, so
`chrono::Duration::minutes` aborts on it. -/
def innerBigMinutes : InnerStore :=
  { innerDefault with remove_unused_interval_in_minutes := 2 ^ 62 }

/-- An environment that sets the write-batch size explicitly to the
string `10000` (which is also the declared default). -/
def envBatch10000 : Env := fun nm =>
  if nm = "GRAPH_STORE_WRITE_BATCH_SIZE" then some "10000" else none

/-- The configuration assembled from `innerDefault`. -/
def cfgDefault : EnvVarsStore :=
  ⟨Duration.from_secs 30, Duration.from_secs 300, Duration.from_secs 600, 0,
    Duration.from_secs 300, Duration.from_secs 60, 150, 150, true,
    (21600000 : Int), 10, Duration.from_millis 5000, none,
    Duration.from_secs 600, 5, Duration.from_secs 180, .fin ⟨5, 10⟩,
    .fin ⟨5, 100⟩, .fin ⟨12, 10⟩, Duration.from_secs 300, 10000000,
    false, false, false, false, 0, 10000⟩

/-- The configuration assembled from `innerRefresh100`. -/
def cfgRefresh100 : EnvVarsStore :=
  ⟨Duration.from_secs 30, Duration.from_secs 100, Duration.from_secs 200, 0,
    Duration.from_secs 300, Duration.from_secs 60, 150, 150, true,
    (21600000 : Int), 10, Duration.from_millis 5000, none,
    Duration.from_secs 600, 5, Duration.from_secs 180, .fin ⟨5, 10⟩,
    .fin ⟨5, 100⟩, .fin ⟨12, 10⟩, Duration.from_secs 300, 10000000,
    false, false, false, false, 0, 10000⟩

end GraphEnv


namespace GraphEnv

@[simp]
theorem ebind_ok {ε α β : Type} (a : α) (f : α → Except ε β) :
    Except.bind (Except.ok a) f = f a :=
  rfl

@[simp]
theorem ebind_err {ε α β : Type} (e : ε) (f : α → Except ε β) :
    Except.bind (Except.error e) f = (Except.error e : Except ε β) :=
  rfl

@[simp]
theorem emapError_ok {ε ε2 α : Type} (f : ε → ε2) (a : α) :
    Except.mapError f (Except.ok a) = Except.ok a :=
  rfl

@[simp]
theorem emapError_err {ε ε2 α : Type} (f : ε → ε2) (e : ε) :
    (Except.mapError f (Except.error e) : Except ε2 α) = Except.error (f e) :=
  rfl

@[simp]
theorem emap_ok {ε α β : Type} (f : α → β) (a : α) :
    Except.map f (Except.ok a : Except ε α) = Except.ok (f a) :=
  rfl

@[simp]
theorem emap_err {ε α β : Type} (f : α → β) (e : ε) :
    Except.map f (Except.error e : Except ε α) = (Except.error e : Except ε β) :=
  rfl

@[simp]
theorem errOf_ok {α : Type} (a : α) : errOf (Except.ok a) = none :=
  rfl

@[simp]
theorem errOf_err {α : Type} (e : ConfigError) :
    errOf (Except.error e : Except ConfigError α) = some e :=
  rfl

@[simp]
theorem orE_some (e : ConfigError) (b : Option ConfigError) :
    orE (some e) b = some e :=
  rfl

@[simp]
theorem orE_none (b : Option ConfigError) : orE none b = b :=
  rfl

@[simp]
theorem isErrB_err {ε α : Type} (e : ε) :
    isErrB (Except.error e : Except ε α) = true :=
  rfl

@[simp]
theorem isErrB_ok {ε α : Type} (a : α) :
    isErrB (Except.ok a : Except ε α) = false :=
  rfl

theorem isErrB_true_inv {ε α : Type} {x : Except ε α} (h : isErrB x = true) :
    ∃ k, x = Except.error k := by
  cases x with
  | error k => exact ⟨k, rfl⟩
  | ok a => simp at h

theorem ebind_ok_inv {ε α β : Type} {x : Except ε α} {f : α → Except ε β} {b : β}
    (h : Except.bind x f = Except.ok b) :
    ∃ a, x = Except.ok a ∧ f a = Except.ok b := by
  cases x with
  | ok a => exact ⟨a, rfl, h⟩
  | error e => rw [ebind_err] at h; exact Except.noConfusion h

theorem loadField_error_inv {α : Type} {env : Env} {nm d : String}
    {p : String → Except ErrKind α} {e : ConfigError}
    (hd : isErrB (p d) = false)
    (h : loadField env nm (some d) p = Except.error e) :
    ∃ s k, env nm = some s ∧ p s = Except.error k ∧ e = ⟨nm, s, k⟩ := by
  cases henv : env nm with
  | some s =>
    cases hp : p s with
    | error k =>
      refine ⟨s, k, rfl, hp, ?_⟩
      simp [loadField, henv, hp] at h
      exact h.symm
    | ok a => simp [loadField, henv, hp] at h
  | none =>
    cases hp : p d with
    | error k => rw [hp] at hd; simp at hd
    | ok a => simp [loadField, henv, hp] at h

theorem loadOptional_error_inv {α : Type} {env : Env} {nm : String}
    {p : String → Except ErrKind α} {e : ConfigError}
    (h : loadOptional env nm p = Except.error e) :
    ∃ s k, env nm = some s ∧ p s = Except.error k ∧ e = ⟨nm, s, k⟩ := by
  cases henv : env nm with
  | some s =>
    cases hp : p s with
    | error k =>
      refine ⟨s, k, rfl, hp, ?_⟩
      simp [loadOptional, henv, hp] at h
      exact h.symm
    | ok a => simp [loadOptional, henv, hp] at h
  | none => simp [loadOptional, henv] at h

theorem loadField_present_err {α : Type} {env : Env} {nm s : String} {k : ErrKind}
    {p : String → Except ErrKind α} (d : Option String)
    (hs : env nm = some s) (hp : p s = Except.error k) :
    loadField env nm d p = Except.error ⟨nm, s, k⟩ := by
  simp [loadField, hs, hp]

theorem loadOptional_present_err {α : Type} {env : Env} {nm s : String} {k : ErrKind}
    {p : String → Except ErrKind α}
    (hs : env nm = some s) (hp : p s = Except.error k) :
    loadOptional env nm p = Except.error ⟨nm, s, k⟩ := by
  simp [loadOptional, hs, hp]

end GraphEnv

namespace GraphEnv

set_option maxHeartbeats 2000000 in
/-- Master characterisation of `InnerStore.load`: either every field
resolves and the load returns the assembled record with no error in
sight, or the load aborts with exactly the first error in declaration
order, and that error names a variable whose present raw value fails
its check. -/
theorem load_master (env : Env) :
    (∃ (a1 : Nat) (a2 : Nat) (a3 : Option Nat) (a4 : Nat) (a5 : Nat) (a6 : Nat) (a7 : Nat) (a8 : Nat) (a9 : EnvVarBoolean) (a10 : Nat) (a11 : Nat) (a12 : Nat) (a13 : Option Nat) (a14 : Nat) (a15 : Nat) (a16 : Nat) (a17 : ZeroToOneF64) (a18 : ZeroToOneF64) (a19 : HistorySlackF64) (a20 : Nat) (a21 : Nat) (a22 : Bool) (a23 : Bool) (a24 : Bool) (a25 : Bool) (a26 : Nat) (a27 : Nat),
      loadChainHeadWatcherTimeout env = Except.ok a1 ∧
      loadQueryStatsRefreshInterval env = Except.ok a2 ∧
      loadSchemaCacheTtl env = Except.ok a3 ∧
      loadExtraQueryPermits env = Except.ok a4 ∧
      loadLargeNotifCleanupInterval env = Except.ok a5 ∧
      loadNotifBroadcastTimeout env = Except.ok a6 ∧
      loadTypeaBatchSize env = Except.ok a7 ∧
      loadTypedChildrenSetSize env = Except.ok a8 ∧
      loadOrderByBlockRange env = Except.ok a9 ∧
      loadRemoveUnusedInterval env = Except.ok a10 ∧
      loadRecentBlocksCacheCapacity env = Except.ok a11 ∧
      loadConnectionTimeout env = Except.ok a12 ∧
      loadConnectionMinIdle env = Except.ok a13 ∧
      loadConnectionIdleTimeout env = Except.ok a14 ∧
      loadWriteQueueSize env = Except.ok a15 ∧
      loadBatchTargetDuration env = Except.ok a16 ∧
      loadRebuildThreshold env = Except.ok a17 ∧
      loadDeleteThreshold env = Except.ok a18 ∧
      loadHistorySlackFactor env = Except.ok a19 ∧
      loadWriteBatchDuration env = Except.ok a20 ∧
      loadWriteBatchSize env = Except.ok a21 ∧
      loadCreateGinIndexes env = Except.ok a22 ∧
      loadUseBrinForAllQueryTypes env = Except.ok a23 ∧
      loadDisableBlockCacheForLookup env = Except.ok a24 ∧
      loadLastRollupFromPoi env = Except.ok a25 ∧
      loadInsertExtraCols env = Except.ok a26 ∧
      loadFdwFetchSize env = Except.ok a27 ∧
      InnerStore.load env = Except.ok ⟨a1, a2, a3, a4, a5, a6, a7, a8, a9, a10, a11, a12, a13, a14, a15, a16, a17, a18, a19, a20, a21, a22, a23, a24, a25, a26, a27⟩ ∧
      firstConfigError env = none) ∨
    (∃ e, InnerStore.load env = Except.error e ∧
      firstConfigError env = some e ∧
      env e.name = some e.raw ∧ varFails e.name e.raw = true) := by
  cases h1 : loadChainHeadWatcherTimeout env with
  | error e =>
    obtain ⟨s, k, hs, hp, rfl⟩ := loadField_error_inv (by decide) h1
    refine Or.inr ⟨⟨"GRAPH_CHAIN_HEAD_WATCHER_TIMEOUT", s, k⟩, ?_, ?_, hs, ?_⟩
    · simp only [InnerStore.load, h1, ebind_ok, ebind_err]
    · simp only [firstConfigError, h1, errOf_ok, errOf_err, orE_none, orE_some]
    · simp [varFails, hp, isErrB]
  | ok a1 =>
    cases h2 : loadQueryStatsRefreshInterval env with
    | error e =>
      obtain ⟨s, k, hs, hp, rfl⟩ := loadField_error_inv (by decide) h2
      refine Or.inr ⟨⟨"GRAPH_QUERY_STATS_REFRESH_INTERVAL", s, k⟩, ?_, ?_, hs, ?_⟩
      · simp only [InnerStore.load, h1, h2, ebind_ok, ebind_err]
      · simp only [firstConfigError, h1, h2, errOf_ok, errOf_err, orE_none, orE_some]
      · simp [varFails, hp, isErrB]
    | ok a2 =>
      cases h3 : loadSchemaCacheTtl env with
      | error e =>
        obtain ⟨s, k, hs, hp, rfl⟩ := loadOptional_error_inv h3
        refine Or.inr ⟨⟨"GRAPH_SCHEMA_CACHE_TTL", s, k⟩, ?_, ?_, hs, ?_⟩
        · simp only [InnerStore.load, h1, h2, h3, ebind_ok, ebind_err]
        · simp only [firstConfigError, h1, h2, h3, errOf_ok, errOf_err, orE_none, orE_some]
        · simp [varFails, hp, isErrB]
      | ok a3 =>
        cases h4 : loadExtraQueryPermits env with
        | error e =>
          obtain ⟨s, k, hs, hp, rfl⟩ := loadField_error_inv (by decide) h4
          refine Or.inr ⟨⟨"GRAPH_EXTRA_QUERY_PERMITS", s, k⟩, ?_, ?_, hs, ?_⟩
          · simp only [InnerStore.load, h1, h2, h3, h4, ebind_ok, ebind_err]
          · simp only [firstConfigError, h1, h2, h3, h4, errOf_ok, errOf_err, orE_none, orE_some]
          · simp [varFails, hp, isErrB]
        | ok a4 =>
          cases h5 : loadLargeNotifCleanupInterval env with
          | error e =>
            obtain ⟨s, k, hs, hp, rfl⟩ := loadField_error_inv (by decide) h5
            refine Or.inr ⟨⟨"LARGE_NOTIFICATION_CLEANUP_INTERVAL", s, k⟩, ?_, ?_, hs, ?_⟩
            · simp only [InnerStore.load, h1, h2, h3, h4, h5, ebind_ok, ebind_err]
            · simp only [firstConfigError, h1, h2, h3, h4, h5, errOf_ok, errOf_err, orE_none, orE_some]
            · simp [varFails, hp, isErrB]
          | ok a5 =>
            cases h6 : loadNotifBroadcastTimeout env with
            | error e =>
              obtain ⟨s, k, hs, hp, rfl⟩ := loadField_error_inv (by decide) h6
              refine Or.inr ⟨⟨"GRAPH_NOTIFICATION_BROADCAST_TIMEOUT", s, k⟩, ?_, ?_, hs, ?_⟩
              · simp only [InnerStore.load, h1, h2, h3, h4, h5, h6, ebind_ok, ebind_err]
              · simp only [firstConfigError, h1, h2, h3, h4, h5, h6, errOf_ok, errOf_err, orE_none, orE_some]
              · simp [varFails, hp, isErrB]
            | ok a6 =>
              cases h7 : loadTypeaBatchSize env with
              | error e =>
                obtain ⟨s, k, hs, hp, rfl⟩ := loadField_error_inv (by decide) h7
                refine Or.inr ⟨⟨"TYPEA_BATCH_SIZE", s, k⟩, ?_, ?_, hs, ?_⟩
                · simp only [InnerStore.load, h1, h2, h3, h4, h5, h6, h7, ebind_ok, ebind_err]
                · simp only [firstConfigError, h1, h2, h3, h4, h5, h6, h7, errOf_ok, errOf_err, orE_none, orE_some]
                · simp [varFails, hp, isErrB]
              | ok a7 =>
                cases h8 : loadTypedChildrenSetSize env with
                | error e =>
                  obtain ⟨s, k, hs, hp, rfl⟩ := loadField_error_inv (by decide) h8
                  refine Or.inr ⟨⟨"TYPED_CHILDREN_SET_SIZE", s, k⟩, ?_, ?_, hs, ?_⟩
                  · simp only [InnerStore.load, h1, h2, h3, h4, h5, h6, h7, h8, ebind_ok, ebind_err]
                  · simp only [firstConfigError, h1, h2, h3, h4, h5, h6, h7, h8, errOf_ok, errOf_err, orE_none, orE_some]
                  · simp [varFails, hp, isErrB]
                | ok a8 =>
                  cases h9 : loadOrderByBlockRange env with
                  | error e =>
                    obtain ⟨s, k, hs, hp, rfl⟩ := loadField_error_inv (by decide) h9
                    refine Or.inr ⟨⟨"ORDER_BY_BLOCK_RANGE", s, k⟩, ?_, ?_, hs, ?_⟩
                    · simp only [InnerStore.load, h1, h2, h3, h4, h5, h6, h7, h8, h9, ebind_ok, ebind_err]
                    · simp only [firstConfigError, h1, h2, h3, h4, h5, h6, h7, h8, h9, errOf_ok, errOf_err, orE_none, orE_some]
                    · simp [varFails, hp, isErrB]
                  | ok a9 =>
                    cases h10 : loadRemoveUnusedInterval env with
                    | error e =>
                      obtain ⟨s, k, hs, hp, rfl⟩ := loadField_error_inv (by decide) h10
                      refine Or.inr ⟨⟨"GRAPH_REMOVE_UNUSED_INTERVAL", s, k⟩, ?_, ?_, hs, ?_⟩
                      · simp only [InnerStore.load, h1, h2, h3, h4, h5, h6, h7, h8, h9, h10, ebind_ok, ebind_err]
                      · simp only [firstConfigError, h1, h2, h3, h4, h5, h6, h7, h8, h9, h10, errOf_ok, errOf_err, orE_none, orE_some]
                      · simp [varFails, hp, isErrB]
                    | ok a10 =>
                      cases h11 : loadRecentBlocksCacheCapacity env with
                      | error e =>
                        obtain ⟨s, k, hs, hp, rfl⟩ := loadField_error_inv (by decide) h11
                        refine Or.inr ⟨⟨"GRAPH_STORE_RECENT_BLOCKS_CACHE_CAPACITY", s, k⟩, ?_, ?_, hs, ?_⟩
                        · simp only [InnerStore.load, h1, h2, h3, h4, h5, h6, h7, h8, h9, h10, h11, ebind_ok, ebind_err]
                        · simp only [firstConfigError, h1, h2, h3, h4, h5, h6, h7, h8, h9, h10, h11, errOf_ok, errOf_err, orE_none, orE_some]
                        · simp [varFails, hp, isErrB]
                      | ok a11 =>
                        cases h12 : loadConnectionTimeout env with
                        | error e =>
                          obtain ⟨s, k, hs, hp, rfl⟩ := loadField_error_inv (by decide) h12
                          refine Or.inr ⟨⟨"GRAPH_STORE_CONNECTION_TIMEOUT", s, k⟩, ?_, ?_, hs, ?_⟩
                          · simp only [InnerStore.load, h1, h2, h3, h4, h5, h6, h7, h8, h9, h10, h11, h12, ebind_ok, ebind_err]
                          · simp only [firstConfigError, h1, h2, h3, h4, h5, h6, h7, h8, h9, h10, h11, h12, errOf_ok, errOf_err, orE_none, orE_some]
                          · simp [varFails, hp, isErrB]
                        | ok a12 =>
                          cases h13 : loadConnectionMinIdle env with
                          | error e =>
                            obtain ⟨s, k, hs, hp, rfl⟩ := loadOptional_error_inv h13
                            refine Or.inr ⟨⟨"GRAPH_STORE_CONNECTION_MIN_IDLE", s, k⟩, ?_, ?_, hs, ?_⟩
                            · simp only [InnerStore.load, h1, h2, h3, h4, h5, h6, h7, h8, h9, h10, h11, h12, h13, ebind_ok, ebind_err]
                            · simp only [firstConfigError, h1, h2, h3, h4, h5, h6, h7, h8, h9, h10, h11, h12, h13, errOf_ok, errOf_err, orE_none, orE_some]
                            · simp [varFails, hp, isErrB]
                          | ok a13 =>
                            cases h14 : loadConnectionIdleTimeout env with
                            | error e =>
                              obtain ⟨s, k, hs, hp, rfl⟩ := loadField_error_inv (by decide) h14
                              refine Or.inr ⟨⟨"GRAPH_STORE_CONNECTION_IDLE_TIMEOUT", s, k⟩, ?_, ?_, hs, ?_⟩
                              · simp only [InnerStore.load, h1, h2, h3, h4, h5, h6, h7, h8, h9, h10, h11, h12, h13, h14, ebind_ok, ebind_err]
                              · simp only [firstConfigError, h1, h2, h3, h4, h5, h6, h7, h8, h9, h10, h11, h12, h13, h14, errOf_ok, errOf_err, orE_none, orE_some]
                              · simp [varFails, hp, isErrB]
                            | ok a14 =>
                              cases h15 : loadWriteQueueSize env with
                              | error e =>
                                obtain ⟨s, k, hs, hp, rfl⟩ := loadField_error_inv (by decide) h15
                                refine Or.inr ⟨⟨"GRAPH_STORE_WRITE_QUEUE", s, k⟩, ?_, ?_, hs, ?_⟩
                                · simp only [InnerStore.load, h1, h2, h3, h4, h5, h6, h7, h8, h9, h10, h11, h12, h13, h14, h15, ebind_ok, ebind_err]
                                · simp only [firstConfigError, h1, h2, h3, h4, h5, h6, h7, h8, h9, h10, h11, h12, h13, h14, h15, errOf_ok, errOf_err, orE_none, orE_some]
                                · simp [varFails, hp, isErrB]
                              | ok a15 =>
                                cases h16 : loadBatchTargetDuration env with
                                | error e =>
                                  obtain ⟨s, k, hs, hp, rfl⟩ := loadField_error_inv (by decide) h16
                                  refine Or.inr ⟨⟨"GRAPH_STORE_BATCH_TARGET_DURATION", s, k⟩, ?_, ?_, hs, ?_⟩
                                  · simp only [InnerStore.load, h1, h2, h3, h4, h5, h6, h7, h8, h9, h10, h11, h12, h13, h14, h15, h16, ebind_ok, ebind_err]
                                  · simp only [firstConfigError, h1, h2, h3, h4, h5, h6, h7, h8, h9, h10, h11, h12, h13, h14, h15, h16, errOf_ok, errOf_err, orE_none, orE_some]
                                  · simp [varFails, hp, isErrB]
                                | ok a16 =>
                                  cases h17 : loadRebuildThreshold env with
                                  | error e =>
                                    obtain ⟨s, k, hs, hp, rfl⟩ := loadField_error_inv (by decide) h17
                                    refine Or.inr ⟨⟨"GRAPH_STORE_HISTORY_REBUILD_THRESHOLD", s, k⟩, ?_, ?_, hs, ?_⟩
                                    · simp only [InnerStore.load, h1, h2, h3, h4, h5, h6, h7, h8, h9, h10, h11, h12, h13, h14, h15, h16, h17, ebind_ok, ebind_err]
                                    · simp only [firstConfigError, h1, h2, h3, h4, h5, h6, h7, h8, h9, h10, h11, h12, h13, h14, h15, h16, h17, errOf_ok, errOf_err, orE_none, orE_some]
                                    · simp [varFails, hp, isErrB]
                                  | ok a17 =>
                                    cases h18 : loadDeleteThreshold env with
                                    | error e =>
                                      obtain ⟨s, k, hs, hp, rfl⟩ := loadField_error_inv (by decide) h18
                                      refine Or.inr ⟨⟨"GRAPH_STORE_HISTORY_DELETE_THRESHOLD", s, k⟩, ?_, ?_, hs, ?_⟩
                                      · simp only [InnerStore.load, h1, h2, h3, h4, h5, h6, h7, h8, h9, h10, h11, h12, h13, h14, h15, h16, h17, h18, ebind_ok, ebind_err]
                                      · simp only [firstConfigError, h1, h2, h3, h4, h5, h6, h7, h8, h9, h10, h11, h12, h13, h14, h15, h16, h17, h18, errOf_ok, errOf_err, orE_none, orE_some]
                                      · simp [varFails, hp, isErrB]
                                    | ok a18 =>
                                      cases h19 : loadHistorySlackFactor env with
                                      | error e =>
                                        obtain ⟨s, k, hs, hp, rfl⟩ := loadField_error_inv (by decide) h19
                                        refine Or.inr ⟨⟨"GRAPH_STORE_HISTORY_SLACK_FACTOR", s, k⟩, ?_, ?_, hs, ?_⟩
                                        · simp only [InnerStore.load, h1, h2, h3, h4, h5, h6, h7, h8, h9, h10, h11, h12, h13, h14, h15, h16, h17, h18, h19, ebind_ok, ebind_err]
                                        · simp only [firstConfigError, h1, h2, h3, h4, h5, h6, h7, h8, h9, h10, h11, h12, h13, h14, h15, h16, h17, h18, h19, errOf_ok, errOf_err, orE_none, orE_some]
                                        · simp [varFails, hp, isErrB]
                                      | ok a19 =>
                                        cases h20 : loadWriteBatchDuration env with
                                        | error e =>
                                          obtain ⟨s, k, hs, hp, rfl⟩ := loadField_error_inv (by decide) h20
                                          refine Or.inr ⟨⟨"GRAPH_STORE_WRITE_BATCH_DURATION", s, k⟩, ?_, ?_, hs, ?_⟩
                                          · simp only [InnerStore.load, h1, h2, h3, h4, h5, h6, h7, h8, h9, h10, h11, h12, h13, h14, h15, h16, h17, h18, h19, h20, ebind_ok, ebind_err]
                                          · simp only [firstConfigError, h1, h2, h3, h4, h5, h6, h7, h8, h9, h10, h11, h12, h13, h14, h15, h16, h17, h18, h19, h20, errOf_ok, errOf_err, orE_none, orE_some]
                                          · simp [varFails, hp, isErrB]
                                        | ok a20 =>
                                          cases h21 : loadWriteBatchSize env with
                                          | error e =>
                                            obtain ⟨s, k, hs, hp, rfl⟩ := loadField_error_inv (by decide) h21
                                            refine Or.inr ⟨⟨"GRAPH_STORE_WRITE_BATCH_SIZE", s, k⟩, ?_, ?_, hs, ?_⟩
                                            · simp only [InnerStore.load, h1, h2, h3, h4, h5, h6, h7, h8, h9, h10, h11, h12, h13, h14, h15, h16, h17, h18, h19, h20, h21, ebind_ok, ebind_err]
                                            · simp only [firstConfigError, h1, h2, h3, h4, h5, h6, h7, h8, h9, h10, h11, h12, h13, h14, h15, h16, h17, h18, h19, h20, h21, errOf_ok, errOf_err, orE_none, orE_some]
                                            · simp [varFails, hp, isErrB]
                                          | ok a21 =>
                                            cases h22 : loadCreateGinIndexes env with
                                            | error e =>
                                              obtain ⟨s, k, hs, hp, rfl⟩ := loadField_error_inv (by decide) h22
                                              refine Or.inr ⟨⟨"GRAPH_STORE_CREATE_GIN_INDEXES", s, k⟩, ?_, ?_, hs, ?_⟩
                                              · simp only [InnerStore.load, h1, h2, h3, h4, h5, h6, h7, h8, h9, h10, h11, h12, h13, h14, h15, h16, h17, h18, h19, h20, h21, h22, ebind_ok, ebind_err]
                                              · simp only [firstConfigError, h1, h2, h3, h4, h5, h6, h7, h8, h9, h10, h11, h12, h13, h14, h15, h16, h17, h18, h19, h20, h21, h22, errOf_ok, errOf_err, orE_none, orE_some]
                                              · simp [varFails, hp, isErrB]
                                            | ok a22 =>
                                              cases h23 : loadUseBrinForAllQueryTypes env with
                                              | error e =>
                                                obtain ⟨s, k, hs, hp, rfl⟩ := loadField_error_inv (by decide) h23
                                                refine Or.inr ⟨⟨"GRAPH_STORE_USE_BRIN_FOR_ALL_QUERY_TYPES", s, k⟩, ?_, ?_, hs, ?_⟩
                                                · simp only [InnerStore.load, h1, h2, h3, h4, h5, h6, h7, h8, h9, h10, h11, h12, h13, h14, h15, h16, h17, h18, h19, h20, h21, h22, h23, ebind_ok, ebind_err]
                                                · simp only [firstConfigError, h1, h2, h3, h4, h5, h6, h7, h8, h9, h10, h11, h12, h13, h14, h15, h16, h17, h18, h19, h20, h21, h22, h23, errOf_ok, errOf_err, orE_none, orE_some]
                                                · simp [varFails, hp, isErrB]
                                              | ok a23 =>
                                                cases h24 : loadDisableBlockCacheForLookup env with
                                                | error e =>
                                                  obtain ⟨s, k, hs, hp, rfl⟩ := loadField_error_inv (by decide) h24
                                                  refine Or.inr ⟨⟨"GRAPH_STORE_DISABLE_BLOCK_CACHE_FOR_LOOKUP", s, k⟩, ?_, ?_, hs, ?_⟩
                                                  · simp only [InnerStore.load, h1, h2, h3, h4, h5, h6, h7, h8, h9, h10, h11, h12, h13, h14, h15, h16, h17, h18, h19, h20, h21, h22, h23, h24, ebind_ok, ebind_err]
                                                  · simp only [firstConfigError, h1, h2, h3, h4, h5, h6, h7, h8, h9, h10, h11, h12, h13, h14, h15, h16, h17, h18, h19, h20, h21, h22, h23, h24, errOf_ok, errOf_err, orE_none, orE_some]
                                                  · simp [varFails, hp, isErrB]
                                                | ok a24 =>
                                                  cases h25 : loadLastRollupFromPoi env with
                                                  | error e =>
                                                    obtain ⟨s, k, hs, hp, rfl⟩ := loadField_error_inv (by decide) h25
                                                    refine Or.inr ⟨⟨"GRAPH_STORE_LAST_ROLLUP_FROM_POI", s, k⟩, ?_, ?_, hs, ?_⟩
                                                    · simp only [InnerStore.load, h1, h2, h3, h4, h5, h6, h7, h8, h9, h10, h11, h12, h13, h14, h15, h16, h17, h18, h19, h20, h21, h22, h23, h24, h25, ebind_ok, ebind_err]
                                                    · simp only [firstConfigError, h1, h2, h3, h4, h5, h6, h7, h8, h9, h10, h11, h12, h13, h14, h15, h16, h17, h18, h19, h20, h21, h22, h23, h24, h25, errOf_ok, errOf_err, orE_none, orE_some]
                                                    · simp [varFails, hp, isErrB]
                                                  | ok a25 =>
                                                    cases h26 : loadInsertExtraCols env with
                                                    | error e =>
                                                      obtain ⟨s, k, hs, hp, rfl⟩ := loadField_error_inv (by decide) h26
                                                      refine Or.inr ⟨⟨"GRAPH_STORE_INSERT_EXTRA_COLS", s, k⟩, ?_, ?_, hs, ?_⟩
                                                      · simp only [InnerStore.load, h1, h2, h3, h4, h5, h6, h7, h8, h9, h10, h11, h12, h13, h14, h15, h16, h17, h18, h19, h20, h21, h22, h23, h24, h25, h26, ebind_ok, ebind_err]
                                                      · simp only [firstConfigError, h1, h2, h3, h4, h5, h6, h7, h8, h9, h10, h11, h12, h13, h14, h15, h16, h17, h18, h19, h20, h21, h22, h23, h24, h25, h26, errOf_ok, errOf_err, orE_none, orE_some]
                                                      · simp [varFails, hp, isErrB]
                                                    | ok a26 =>
                                                      cases h27 : loadFdwFetchSize env with
                                                      | error e =>
                                                        obtain ⟨s, k, hs, hp, rfl⟩ := loadField_error_inv (by decide) h27
                                                        refine Or.inr ⟨⟨"GRAPH_STORE_FDW_FETCH_SIZE", s, k⟩, ?_, ?_, hs, ?_⟩
                                                        · simp only [InnerStore.load, h1, h2, h3, h4, h5, h6, h7, h8, h9, h10, h11, h12, h13, h14, h15, h16, h17, h18, h19, h20, h21, h22, h23, h24, h25, h26, h27, ebind_ok, ebind_err]
                                                        · simp only [firstConfigError, h1, h2, h3, h4, h5, h6, h7, h8, h9, h10, h11, h12, h13, h14, h15, h16, h17, h18, h19, h20, h21, h22, h23, h24, h25, h26, h27, errOf_ok, errOf_err, orE_none, orE_some]
                                                        · simp [varFails, hp, isErrB]
                                                      | ok a27 =>
                                                        refine Or.inl ⟨a1, a2, a3, a4, a5, a6, a7, a8, a9, a10, a11, a12, a13, a14, a15, a16, a17, a18, a19, a20, a21, a22, a23, a24, a25, a26, a27, rfl, rfl, rfl, rfl, rfl, rfl, rfl, rfl, rfl, rfl, rfl, rfl, rfl, rfl, rfl, rfl, rfl, rfl, rfl, rfl, rfl, rfl, rfl, rfl, rfl, rfl, rfl, ?_, ?_⟩
                                                        · simp only [InnerStore.load, h1, h2, h3, h4, h5, h6, h7, h8, h9, h10, h11, h12, h13, h14, h15, h16, h17, h18, h19, h20, h21, h22, h23, h24, h25, h26, h27, ebind_ok]
                                                        · simp only [firstConfigError, h1, h2, h3, h4, h5, h6, h7, h8, h9, h10, h11, h12, h13, h14, h15, h16, h17, h18, h19, h20, h21, h22, h23, h24, h25, h26, h27, errOf_ok, orE_none]

end GraphEnv

namespace GraphEnv

/-- Inversion of a successful load: every field resolver succeeded and
returned the corresponding field of the result. -/
theorem load_ok_inv {env : Env} {inner : InnerStore}
    (h : InnerStore.load env = Except.ok inner) :
    loadChainHeadWatcherTimeout env = Except.ok inner.chain_head_watcher_timeout_in_secs ∧
    loadQueryStatsRefreshInterval env = Except.ok inner.query_stats_refresh_interval_in_secs ∧
    loadSchemaCacheTtl env = Except.ok inner.schema_cache_ttl ∧
    loadExtraQueryPermits env = Except.ok inner.extra_query_permits ∧
    loadLargeNotifCleanupInterval env = Except.ok inner.large_notification_cleanup_interval_in_secs ∧
    loadNotifBroadcastTimeout env = Except.ok inner.notification_broadcast_timeout_in_secs ∧
    loadTypeaBatchSize env = Except.ok inner.typea_batch_size ∧
    loadTypedChildrenSetSize env = Except.ok inner.typed_children_set_size ∧
    loadOrderByBlockRange env = Except.ok inner.order_by_block_range ∧
    loadRemoveUnusedInterval env = Except.ok inner.remove_unused_interval_in_minutes ∧
    loadRecentBlocksCacheCapacity env = Except.ok inner.recent_blocks_cache_capacity ∧
    loadConnectionTimeout env = Except.ok inner.connection_timeout_in_millis ∧
    loadConnectionMinIdle env = Except.ok inner.connection_min_idle ∧
    loadConnectionIdleTimeout env = Except.ok inner.connection_idle_timeout_in_secs ∧
    loadWriteQueueSize env = Except.ok inner.write_queue_size ∧
    loadBatchTargetDuration env = Except.ok inner.batch_target_duration_in_secs ∧
    loadRebuildThreshold env = Except.ok inner.rebuild_threshold ∧
    loadDeleteThreshold env = Except.ok inner.delete_threshold ∧
    loadHistorySlackFactor env = Except.ok inner.history_slack_factor ∧
    loadWriteBatchDuration env = Except.ok inner.write_batch_duration_in_secs ∧
    loadWriteBatchSize env = Except.ok inner.write_batch_size ∧
    loadCreateGinIndexes env = Except.ok inner.create_gin_indexes ∧
    loadUseBrinForAllQueryTypes env = Except.ok inner.use_brin_for_all_query_types ∧
    loadDisableBlockCacheForLookup env = Except.ok inner.disable_block_cache_for_lookup ∧
    loadLastRollupFromPoi env = Except.ok inner.last_rollup_from_poi ∧
    loadInsertExtraCols env = Except.ok inner.insert_extra_cols ∧
    loadFdwFetchSize env = Except.ok inner.fdw_fetch_size := by
  rcases load_master env with ⟨a1, a2, a3, a4, a5, a6, a7, a8, a9, a10, a11, a12, a13, a14, a15, a16, a17, a18, a19, a20, a21, a22, a23, a24, a25, a26, a27, e1, e2, e3, e4, e5, e6, e7, e8, e9, e10, e11, e12, e13, e14, e15, e16, e17, e18, e19, e20, e21, e22, e23, e24, e25, e26, e27, hld, -⟩ | ⟨e0, hld, -, -, -⟩
  · rw [h] at hld
    obtain rfl := Except.ok.inj hld
    exact ⟨e1, e2, e3, e4, e5, e6, e7, e8, e9, e10, e11, e12, e13, e14, e15, e16, e17, e18, e19, e20, e21, e22, e23, e24, e25, e26, e27⟩
  · rw [h] at hld
    exact Except.noConfusion hld

end GraphEnv

namespace GraphEnv

theorem F64.not_lt_of_le {x y : F64} (h : F64.le x y = true) :
    F64.lt y x = false := by
  cases x <;> cases y <;> simp_all [F64.le, F64.lt]

/-- Claim C2: every input string that parses as an f64 value x with
0.0 <= x <= 1.0 (an IEEE comparison) is accepted by the UnitInterval
parse, which yields exactly x; every input parsing to x < 0.0 or
x > 1.0 is rejected with an out-of-range error. -/
theorem zero_to_one_parse_spec (s : String) (x : F64)
    (hp : parseF64 s = some x) :
    (F64.le (.fin ⟨0, 1⟩) x = true → F64.le x (.fin ⟨1, 1⟩) = true →
      ZeroToOneF64.from_str s = Except.ok ⟨x⟩) ∧
    ((F64.lt x (.fin ⟨0, 1⟩) = true ∨ F64.lt (.fin ⟨1, 1⟩) x = true) →
      ZeroToOneF64.from_str s = Except.error ErrKind.outOfRange) := by
  constructor
  · intro h0 h1
    have l0 : F64.lt x (.fin ⟨0, 1⟩) = false := F64.not_lt_of_le h0
    have l1 : F64.lt (.fin ⟨1, 1⟩) x = false := F64.not_lt_of_le h1
    simp [ZeroToOneF64.from_str, hp, l0, l1]
  · intro h
    rcases h with h | h <;> simp [ZeroToOneF64.from_str, hp, h]

theorem zero_to_one_parse_spec_witness :
    parseF64 "0.5" = some (.fin ⟨5, 10⟩) ∧
    ZeroToOneF64.from_str "0.5" = Except.ok ⟨.fin ⟨5, 10⟩⟩ ∧
    ZeroToOneF64.from_str "1.5" = Except.error ErrKind.outOfRange :=
  ⟨by decide,
   (zero_to_one_parse_spec "0.5" (.fin ⟨5, 10⟩) (by decide)).1 (by decide) (by decide),
   (zero_to_one_parse_spec "1.5" (.fin ⟨15, 10⟩) (by decide)).2 (Or.inr (by decide))⟩

/-- Claim C3: every input string that parses as an f64 value x with
x >= 1.01 is accepted by the SlackFactor parse (in particular the bound
1.01 itself); every input parsing to x < 1.01 is rejected with an
out-of-range error. -/
theorem history_slack_parse_spec (s : String) (x : F64)
    (hp : parseF64 s = some x) :
    (F64.le (.fin ⟨101, 100⟩) x = true →
      HistorySlackF64.from_str s = Except.ok ⟨x⟩) ∧
    (F64.lt x (.fin ⟨101, 100⟩) = true →
      HistorySlackF64.from_str s = Except.error ErrKind.outOfRange) := by
  constructor
  · intro hge
    have l : F64.lt x (.fin ⟨101, 100⟩) = false := F64.not_lt_of_le hge
    simp [HistorySlackF64.from_str, hp, l]
  · intro h
    simp [HistorySlackF64.from_str, hp, h]

theorem history_slack_parse_spec_witness :
    parseF64 "1.01" = some (.fin ⟨101, 100⟩) ∧
    HistorySlackF64.from_str "1.01" = Except.ok ⟨.fin ⟨101, 100⟩⟩ ∧
    HistorySlackF64.from_str "1.0" = Except.error ErrKind.outOfRange :=
  ⟨by decide,
   (history_slack_parse_spec "1.01" (.fin ⟨101, 100⟩) (by decide)).1 (by decide),
   (history_slack_parse_spec "1.0" (.fin ⟨10, 10⟩) (by decide)).2 (by decide)⟩

/-- Claim C4 (code bug): the input `NaN` parses as an f64 NaN, the range
check `f < 0.0 || f > 1.0` (and likewise `f < 1.01`) is false for NaN, so
both validated scalar parsers accept `NaN` and hand out a wrapped value
that satisfies neither `0.0 <= v <= 1.0` nor `v >= 1.01`. -/
theorem validated_scalar_nan_accepted :
    ZeroToOneF64.from_str "NaN" = Except.ok ⟨F64.nan⟩ ∧
    HistorySlackF64.from_str "NaN" = Except.ok ⟨F64.nan⟩ ∧
    F64.le (.fin ⟨0, 1⟩) F64.nan = false ∧
    F64.le F64.nan (.fin ⟨1, 1⟩) = false ∧
    F64.le (.fin ⟨101, 100⟩) F64.nan = false := by
  decide

/-- Claim C7: the diagnostic (Debug) representation of an assembled
configuration is the constant string `env vars`; any two configurations
produce identical output, so no field value can be revealed. -/
theorem debug_output_constant (a b : EnvVarsStore) :
    EnvVarsStore.debugFmt a = EnvVarsStore.debugFmt b ∧
    EnvVarsStore.debugFmt a = "env vars" :=
  ⟨rfl, rfl⟩

/-- Claim C10 (amended): the conversion multiplies the write-batch size
by 1000 and, when the schema-cache TTL is absent, doubles the refresh
interval, with no overflow check, and passes the cast remove-unused
interval through `chrono::Duration::minutes`.  Under the preconditions
`write_batch_size <= usize::MAX / 1000`, `refresh <= u64::MAX / 2`, and
the remove-unused duration lying within the chrono bounds, the conversion
is total and the multiplication results exact; when the write-batch
multiplication overflows, when the doubling performed for an absent TTL
overflows, or when the chrono conversion is out of bounds, there is no
normal result. -/
theorem from_inner_overflow_guard (x : InnerStore) :
    (x.write_batch_size ≤ (2 ^ 64 - 1) / 1000 →
      x.query_stats_refresh_interval_in_secs ≤ (2 ^ 64 - 1) / 2 →
      -(2 ^ 63 - 1) ≤ u64ToI64 x.remove_unused_interval_in_minutes * 60000 →
      u64ToI64 x.remove_unused_interval_in_minutes * 60000 ≤ 2 ^ 63 - 1 →
      ∃ cfg, EnvVarsStore.fromInner x = some cfg ∧
        cfg.write_batch_size = x.write_batch_size * 1000 ∧
        (x.schema_cache_ttl = none →
          cfg.schema_cache_ttl =
            Duration.from_secs (2 * x.query_stats_refresh_interval_in_secs))) ∧
    ((2 ^ 64 - 1) / 1000 < x.write_batch_size →
      EnvVarsStore.fromInner x = none) ∧
    (x.schema_cache_ttl = none →
      (2 ^ 64 - 1) / 2 < x.query_stats_refresh_interval_in_secs →
      EnvVarsStore.fromInner x = none) ∧
    (ChronoDuration.try_minutes (u64ToI64 x.remove_unused_interval_in_minutes) = none →
      EnvVarsStore.fromInner x = none) := by
  refine ⟨?_, ?_, ?_, ?_⟩
  · intro h1 h2 hr1 hr2
    have hcond : ¬((x.schema_cache_ttl = none ∧
        2 ^ 64 ≤ 2 * x.query_stats_refresh_interval_in_secs) ∨
        2 ^ 64 ≤ x.write_batch_size * 1000) := by
      rintro (⟨-, hc⟩ | hc) <;> omega
    have htm : ChronoDuration.try_minutes
        (u64ToI64 x.remove_unused_interval_in_minutes) =
        some (u64ToI64 x.remove_unused_interval_in_minutes * 60000) := by
      unfold ChronoDuration.try_minutes
      rw [if_pos ⟨hr1, hr2⟩]
    cases hcf : EnvVarsStore.fromInner x with
    | none =>
      unfold EnvVarsStore.fromInner at hcf
      rw [if_neg hcond, htm] at hcf
      simp at hcf
    | some cfg =>
      unfold EnvVarsStore.fromInner at hcf
      rw [if_neg hcond, htm] at hcf
      obtain rfl := Option.some.inj hcf
      refine ⟨_, rfl, rfl, ?_⟩
      intro httl
      simp [httl]
  · intro h
    have hcond : (x.schema_cache_ttl = none ∧
        2 ^ 64 ≤ 2 * x.query_stats_refresh_interval_in_secs) ∨
        2 ^ 64 ≤ x.write_batch_size * 1000 := Or.inr (by omega)
    unfold EnvVarsStore.fromInner
    rw [if_pos hcond]
  · intro httl h
    have hcond : (x.schema_cache_ttl = none ∧
        2 ^ 64 ≤ 2 * x.query_stats_refresh_interval_in_secs) ∨
        2 ^ 64 ≤ x.write_batch_size * 1000 := Or.inl ⟨httl, by omega⟩
    unfold EnvVarsStore.fromInner
    rw [if_pos hcond]
  · intro htm
    unfold EnvVarsStore.fromInner
    split
    · rfl
    · rw [htm]

/-- Claim C10 counterexample: a field set satisfying both multiplication
bounds of the claim as stated, on which the conversion nevertheless has
no normal result, because the remove-unused interval of `2 ^ 62` minutes
exceeds the chrono duration range and `chrono::Duration::minutes` aborts
on it. -/
theorem from_inner_overflow_guard_counterexample :
    innerBigMinutes.write_batch_size ≤ (2 ^ 64 - 1) / 1000 ∧
    innerBigMinutes.query_stats_refresh_interval_in_secs ≤ (2 ^ 64 - 1) / 2 ∧
    EnvVarsStore.fromInner innerBigMinutes = none := by
  decide

theorem from_inner_overflow_guard_witness :
    (∃ cfg, EnvVarsStore.fromInner innerDefault = some cfg ∧
      cfg.write_batch_size = innerDefault.write_batch_size * 1000 ∧
      (innerDefault.schema_cache_ttl = none →
        cfg.schema_cache_ttl = Duration.from_secs
          (2 * innerDefault.query_stats_refresh_interval_in_secs))) ∧
    EnvVarsStore.fromInner innerBigBatch = none :=
  ⟨(from_inner_overflow_guard innerDefault).1 (by decide) (by decide)
      (by decide) (by decide),
   (from_inner_overflow_guard innerBigBatch).2.1 (by decide)⟩

end GraphEnv

namespace GraphEnv

/-- Claim C1: in every successful load with the schema-cache-TTL variable
absent, the resolved TTL is exactly twice the resolved query-stats refresh
interval; when the variable is present with a valid value, the resolved
TTL is that explicit value. -/
theorem schema_cache_ttl_derivation (env : Env) (inner : InnerStore)
    (cfg : EnvVarsStore) (hl : InnerStore.load env = Except.ok inner)
    (hc : EnvVarsStore.fromInner inner = some cfg) :
    (env "GRAPH_SCHEMA_CACHE_TTL" = none →
      cfg.schema_cache_ttl = 2 * cfg.query_stats_refresh_interval) ∧
    (∀ s n, env "GRAPH_SCHEMA_CACHE_TTL" = some s →
      parseU64 s = Except.ok n →
      cfg.schema_cache_ttl = Duration.from_secs n) := by
  obtain ⟨-, -, q3, -, -, -, -, -, -, -, -, -, -, -, -, -, -, -, -, -, -, -, -, -, -, -, -⟩ := load_ok_inv hl
  unfold EnvVarsStore.fromInner at hc
  split at hc
  · exact Option.noConfusion hc
  · split at hc
    · exact Option.noConfusion hc
    · obtain rfl := Option.some.inj hc
      constructor
      · intro habs
        have h3 : inner.schema_cache_ttl = none := by
          simp [loadSchemaCacheTtl, loadOptional, habs] at q3
          exact q3.symm
        simp [h3, Duration.from_secs]
        ring
      · intro s n hs hn
        have h3 : inner.schema_cache_ttl = some n := by
          simp [loadSchemaCacheTtl, loadOptional, hs, hn] at q3
          exact q3.symm
        simp [h3, Duration.from_secs]

theorem schema_cache_ttl_derivation_witness :
    InnerStore.load envRefresh100 = Except.ok innerRefresh100 ∧
    EnvVarsStore.fromInner innerRefresh100 = some cfgRefresh100 ∧
    cfgRefresh100.schema_cache_ttl = 2 * cfgRefresh100.query_stats_refresh_interval ∧
    cfgRefresh100.schema_cache_ttl = Duration.from_secs 200 :=
  ⟨by decide, by decide,
   (schema_cache_ttl_derivation envRefresh100 innerRefresh100 cfgRefresh100
      (by decide) (by decide)).1 (by decide),
   by decide⟩

/-- Claim C5: in every successful load the resolved write-batch byte count
is the kilobyte-denominated parsed value multiplied by 1000; in particular
the raw string `10000` (explicit or as the default) resolves to
10000000 bytes. -/
theorem write_batch_size_kilobytes (env : Env) (inner : InnerStore)
    (cfg : EnvVarsStore) (hl : InnerStore.load env = Except.ok inner)
    (hc : EnvVarsStore.fromInner inner = some cfg) :
    cfg.write_batch_size = inner.write_batch_size * 1000 ∧
    (env "GRAPH_STORE_WRITE_BATCH_SIZE" = some "10000" →
      cfg.write_batch_size = 10000000) ∧
    (env "GRAPH_STORE_WRITE_BATCH_SIZE" = none →
      cfg.write_batch_size = 10000000) := by
  obtain ⟨-, -, -, -, -, -, -, -, -, -, -, -, -, -, -, -, -, -, -, -, q21, -, -, -, -, -, -⟩ := load_ok_inv hl
  unfold EnvVarsStore.fromInner at hc
  split at hc
  · exact Option.noConfusion hc
  · split at hc
    · exact Option.noConfusion hc
    · obtain rfl := Option.some.inj hc
      refine ⟨rfl, ?_, ?_⟩
      · intro hs
        have hwb : inner.write_batch_size = 10000 := by
          simp [loadWriteBatchSize, loadField, hs,
            show parseUsize "10000" = Except.ok 10000 from by decide] at q21
          exact q21.symm
        simp [hwb]
      · intro habs
        have hwb : inner.write_batch_size = 10000 := by
          simp [loadWriteBatchSize, loadField, habs,
            show parseUsize "10000" = Except.ok 10000 from by decide] at q21
          exact q21.symm
        simp [hwb]

theorem write_batch_size_kilobytes_witness :
    InnerStore.load envBatch10000 = Except.ok innerDefault ∧
    EnvVarsStore.fromInner innerDefault = some cfgDefault ∧
    cfgDefault.write_batch_size = 10000000 :=
  ⟨by decide, by decide,
   ((write_batch_size_kilobytes envBatch10000 innerDefault cfgDefault
      (by decide) (by decide)).2.1 (by decide))⟩

/-- Claim C6: when the connection-min-idle variable is absent, its absence
never causes an error (no load error names it), and any successfully
loaded and assembled configuration carries `none` for that field. -/
theorem connection_min_idle_optional (env : Env)
    (habs : env "GRAPH_STORE_CONNECTION_MIN_IDLE" = none) :
    (∀ inner, InnerStore.load env = Except.ok inner →
      inner.connection_min_idle = none) ∧
    (∀ inner cfg, InnerStore.load env = Except.ok inner →
      EnvVarsStore.fromInner inner = some cfg →
      cfg.connection_min_idle = none) ∧
    (∀ e, InnerStore.load env = Except.error e →
      e.name ≠ "GRAPH_STORE_CONNECTION_MIN_IDLE") := by
  refine ⟨?_, ?_, ?_⟩
  · intro inner hl
    obtain ⟨-, -, -, -, -, -, -, -, -, -, -, -, q13, -, -, -, -, -, -, -, -, -, -, -, -, -, -⟩ := load_ok_inv hl
    simp [loadConnectionMinIdle, loadOptional, habs] at q13
    exact q13.symm
  · intro inner cfg hl hc
    obtain ⟨-, -, -, -, -, -, -, -, -, -, -, -, q13, -, -, -, -, -, -, -, -, -, -, -, -, -, -⟩ := load_ok_inv hl
    have h13 : inner.connection_min_idle = none := by
      simp [loadConnectionMinIdle, loadOptional, habs] at q13
      exact q13.symm
    unfold EnvVarsStore.fromInner at hc
    split at hc
    · exact Option.noConfusion hc
    · split at hc
      · exact Option.noConfusion hc
      · obtain rfl := Option.some.inj hc
        simp [h13]
  · intro e he hname
    rcases load_master env with ⟨a1, a2, a3, a4, a5, a6, a7, a8, a9, a10, a11, a12, a13, a14, a15, a16, a17, a18, a19, a20, a21, a22, a23, a24, a25, a26, a27, -, -, -, -, -, -, -, -, -, -, -, -, -, -, -, -, -, -, -, -, -, -, -, -, -, -, -, hld, -⟩ | ⟨e2, hld, -, henv, -⟩
    · rw [he] at hld
      exact Except.noConfusion hld
    · rw [he] at hld
      obtain rfl := Except.error.inj hld
      rw [hname, habs] at henv
      exact Option.noConfusion henv

theorem connection_min_idle_optional_witness :
    envEmpty "GRAPH_STORE_CONNECTION_MIN_IDLE" = none ∧
    InnerStore.load envEmpty = Except.ok innerDefault ∧
    EnvVarsStore.fromInner innerDefault = some cfgDefault ∧
    cfgDefault.connection_min_idle = none :=
  ⟨rfl, by decide, by decide,
   (connection_min_idle_optional envEmpty rfl).2.1 innerDefault cfgDefault
     (by decide) (by decide)⟩

/-- Claim C8: a load aborts with an error exactly when some field fails,
and the reported error is precisely the first one in declaration order;
a configuration is produced only when every field resolved (no partial
configuration exists). -/
theorem load_fail_fast_first_error (env : Env) :
    (∀ e, InnerStore.load env = Except.error e ↔
      firstConfigError env = some e) ∧
    (∀ inner, InnerStore.load env = Except.ok inner →
      firstConfigError env = none) := by
  rcases load_master env with ⟨a1, a2, a3, a4, a5, a6, a7, a8, a9, a10, a11, a12, a13, a14, a15, a16, a17, a18, a19, a20, a21, a22, a23, a24, a25, a26, a27, -, -, -, -, -, -, -, -, -, -, -, -, -, -, -, -, -, -, -, -, -, -, -, -, -, -, -, hld, hfe⟩ | ⟨e0, hld, hfe, -, -⟩
  · constructor
    · intro e
      rw [hld, hfe]
      simp
    · intro inner h
      exact hfe
  · constructor
    · intro e
      rw [hld, hfe]
      simp
    · intro inner h
      rw [h] at hld
      exact Except.noConfusion hld

theorem load_fail_fast_first_error_witness :
    InnerStore.load envTwoBad =
      Except.error ⟨"TYPEA_BATCH_SIZE", "abc", ErrKind.malformedValue⟩ :=
  ((load_fail_fast_first_error envTwoBad).1 _).mpr (by decide)

end GraphEnv

namespace GraphEnv

set_option maxHeartbeats 4000000 in
/-- Claim C9: whenever the load aborts, the reported error names a
recognised variable together with its exact present raw string, which
fails the type/range check of that variable; and whenever any recognised
variable is present with a failing raw value, the load aborts. -/
theorem invalid_value_error_reporting (env : Env) :
    (∀ e, InnerStore.load env = Except.error e →
      env e.name = some e.raw ∧ varFails e.name e.raw = true) ∧
    (∀ nm s, env nm = some s → varFails nm s = true →
      ∃ e, InnerStore.load env = Except.error e) := by
  constructor
  · intro e he
    rcases load_master env with ⟨a1, a2, a3, a4, a5, a6, a7, a8, a9, a10, a11, a12, a13, a14, a15, a16, a17, a18, a19, a20, a21, a22, a23, a24, a25, a26, a27, -, -, -, -, -, -, -, -, -, -, -, -, -, -, -, -, -, -, -, -, -, -, -, -, -, -, -, hld, -⟩ | ⟨e2, hld, -, henv, hvf⟩
    · rw [he] at hld
      exact Except.noConfusion hld
    · rw [he] at hld
      obtain rfl := Except.error.inj hld
      exact ⟨henv, hvf⟩
  · intro nm s hs hvf
    rcases load_master env with ⟨a1, a2, a3, a4, a5, a6, a7, a8, a9, a10, a11, a12, a13, a14, a15, a16, a17, a18, a19, a20, a21, a22, a23, a24, a25, a26, a27, e1, e2, e3, e4, e5, e6, e7, e8, e9, e10, e11, e12, e13, e14, e15, e16, e17, e18, e19, e20, e21, e22, e23, e24, e25, e26, e27, hld, -⟩ | ⟨e, hld, -, -, -⟩
    · exfalso
      by_cases heq1 : nm = "GRAPH_CHAIN_HEAD_WATCHER_TIMEOUT"
      · subst heq1
        simp [varFails] at hvf
        obtain ⟨k, hk⟩ := isErrB_true_inv hvf
        unfold loadChainHeadWatcherTimeout at e1
        rw [loadField_present_err _ hs hk] at e1
        exact Except.noConfusion e1
      ·
        by_cases heq2 : nm = "GRAPH_QUERY_STATS_REFRESH_INTERVAL"
        · subst heq2
          simp [varFails] at hvf
          obtain ⟨k, hk⟩ := isErrB_true_inv hvf
          unfold loadQueryStatsRefreshInterval at e2
          rw [loadField_present_err _ hs hk] at e2
          exact Except.noConfusion e2
        ·
          by_cases heq3 : nm = "GRAPH_SCHEMA_CACHE_TTL"
          · subst heq3
            simp [varFails] at hvf
            obtain ⟨k, hk⟩ := isErrB_true_inv hvf
            unfold loadSchemaCacheTtl at e3
            rw [loadOptional_present_err hs hk] at e3
            exact Except.noConfusion e3
          ·
            by_cases heq4 : nm = "GRAPH_EXTRA_QUERY_PERMITS"
            · subst heq4
              simp [varFails] at hvf
              obtain ⟨k, hk⟩ := isErrB_true_inv hvf
              unfold loadExtraQueryPermits at e4
              rw [loadField_present_err _ hs hk] at e4
              exact Except.noConfusion e4
            ·
              by_cases heq5 : nm = "LARGE_NOTIFICATION_CLEANUP_INTERVAL"
              · subst heq5
                simp [varFails] at hvf
                obtain ⟨k, hk⟩ := isErrB_true_inv hvf
                unfold loadLargeNotifCleanupInterval at e5
                rw [loadField_present_err _ hs hk] at e5
                exact Except.noConfusion e5
              ·
                by_cases heq6 : nm = "GRAPH_NOTIFICATION_BROADCAST_TIMEOUT"
                · subst heq6
                  simp [varFails] at hvf
                  obtain ⟨k, hk⟩ := isErrB_true_inv hvf
                  unfold loadNotifBroadcastTimeout at e6
                  rw [loadField_present_err _ hs hk] at e6
                  exact Except.noConfusion e6
                ·
                  by_cases heq7 : nm = "TYPEA_BATCH_SIZE"
                  · subst heq7
                    simp [varFails] at hvf
                    obtain ⟨k, hk⟩ := isErrB_true_inv hvf
                    unfold loadTypeaBatchSize at e7
                    rw [loadField_present_err _ hs hk] at e7
                    exact Except.noConfusion e7
                  ·
                    by_cases heq8 : nm = "TYPED_CHILDREN_SET_SIZE"
                    · subst heq8
                      simp [varFails] at hvf
                      obtain ⟨k, hk⟩ := isErrB_true_inv hvf
                      unfold loadTypedChildrenSetSize at e8
                      rw [loadField_present_err _ hs hk] at e8
                      exact Except.noConfusion e8
                    ·
                      by_cases heq9 : nm = "ORDER_BY_BLOCK_RANGE"
                      · subst heq9
                        simp [varFails] at hvf
                        obtain ⟨k, hk⟩ := isErrB_true_inv hvf
                        unfold loadOrderByBlockRange at e9
                        rw [loadField_present_err _ hs hk] at e9
                        exact Except.noConfusion e9
                      ·
                        by_cases heq10 : nm = "GRAPH_REMOVE_UNUSED_INTERVAL"
                        · subst heq10
                          simp [varFails] at hvf
                          obtain ⟨k, hk⟩ := isErrB_true_inv hvf
                          unfold loadRemoveUnusedInterval at e10
                          rw [loadField_present_err _ hs hk] at e10
                          exact Except.noConfusion e10
                        ·
                          by_cases heq11 : nm = "GRAPH_STORE_RECENT_BLOCKS_CACHE_CAPACITY"
                          · subst heq11
                            simp [varFails] at hvf
                            obtain ⟨k, hk⟩ := isErrB_true_inv hvf
                            unfold loadRecentBlocksCacheCapacity at e11
                            rw [loadField_present_err _ hs hk] at e11
                            exact Except.noConfusion e11
                          ·
                            by_cases heq12 : nm = "GRAPH_STORE_CONNECTION_TIMEOUT"
                            · subst heq12
                              simp [varFails] at hvf
                              obtain ⟨k, hk⟩ := isErrB_true_inv hvf
                              unfold loadConnectionTimeout at e12
                              rw [loadField_present_err _ hs hk] at e12
                              exact Except.noConfusion e12
                            ·
                              by_cases heq13 : nm = "GRAPH_STORE_CONNECTION_MIN_IDLE"
                              · subst heq13
                                simp [varFails] at hvf
                                obtain ⟨k, hk⟩ := isErrB_true_inv hvf
                                unfold loadConnectionMinIdle at e13
                                rw [loadOptional_present_err hs hk] at e13
                                exact Except.noConfusion e13
                              ·
                                by_cases heq14 : nm = "GRAPH_STORE_CONNECTION_IDLE_TIMEOUT"
                                · subst heq14
                                  simp [varFails] at hvf
                                  obtain ⟨k, hk⟩ := isErrB_true_inv hvf
                                  unfold loadConnectionIdleTimeout at e14
                                  rw [loadField_present_err _ hs hk] at e14
                                  exact Except.noConfusion e14
                                ·
                                  by_cases heq15 : nm = "GRAPH_STORE_WRITE_QUEUE"
                                  · subst heq15
                                    simp [varFails] at hvf
                                    obtain ⟨k, hk⟩ := isErrB_true_inv hvf
                                    unfold loadWriteQueueSize at e15
                                    rw [loadField_present_err _ hs hk] at e15
                                    exact Except.noConfusion e15
                                  ·
                                    by_cases heq16 : nm = "GRAPH_STORE_BATCH_TARGET_DURATION"
                                    · subst heq16
                                      simp [varFails] at hvf
                                      obtain ⟨k, hk⟩ := isErrB_true_inv hvf
                                      unfold loadBatchTargetDuration at e16
                                      rw [loadField_present_err _ hs hk] at e16
                                      exact Except.noConfusion e16
                                    ·
                                      by_cases heq17 : nm = "GRAPH_STORE_HISTORY_REBUILD_THRESHOLD"
                                      · subst heq17
                                        simp [varFails] at hvf
                                        obtain ⟨k, hk⟩ := isErrB_true_inv hvf
                                        unfold loadRebuildThreshold at e17
                                        rw [loadField_present_err _ hs hk] at e17
                                        exact Except.noConfusion e17
                                      ·
                                        by_cases heq18 : nm = "GRAPH_STORE_HISTORY_DELETE_THRESHOLD"
                                        · subst heq18
                                          simp [varFails] at hvf
                                          obtain ⟨k, hk⟩ := isErrB_true_inv hvf
                                          unfold loadDeleteThreshold at e18
                                          rw [loadField_present_err _ hs hk] at e18
                                          exact Except.noConfusion e18
                                        ·
                                          by_cases heq19 : nm = "GRAPH_STORE_HISTORY_SLACK_FACTOR"
                                          · subst heq19
                                            simp [varFails] at hvf
                                            obtain ⟨k, hk⟩ := isErrB_true_inv hvf
                                            unfold loadHistorySlackFactor at e19
                                            rw [loadField_present_err _ hs hk] at e19
                                            exact Except.noConfusion e19
                                          ·
                                            by_cases heq20 : nm = "GRAPH_STORE_WRITE_BATCH_DURATION"
                                            · subst heq20
                                              simp [varFails] at hvf
                                              obtain ⟨k, hk⟩ := isErrB_true_inv hvf
                                              unfold loadWriteBatchDuration at e20
                                              rw [loadField_present_err _ hs hk] at e20
                                              exact Except.noConfusion e20
                                            ·
                                              by_cases heq21 : nm = "GRAPH_STORE_WRITE_BATCH_SIZE"
                                              · subst heq21
                                                simp [varFails] at hvf
                                                obtain ⟨k, hk⟩ := isErrB_true_inv hvf
                                                unfold loadWriteBatchSize at e21
                                                rw [loadField_present_err _ hs hk] at e21
                                                exact Except.noConfusion e21
                                              ·
                                                by_cases heq22 : nm = "GRAPH_STORE_CREATE_GIN_INDEXES"
                                                · subst heq22
                                                  simp [varFails] at hvf
                                                  obtain ⟨k, hk⟩ := isErrB_true_inv hvf
                                                  unfold loadCreateGinIndexes at e22
                                                  rw [loadField_present_err _ hs hk] at e22
                                                  exact Except.noConfusion e22
                                                ·
                                                  by_cases heq23 : nm = "GRAPH_STORE_USE_BRIN_FOR_ALL_QUERY_TYPES"
                                                  · subst heq23
                                                    simp [varFails] at hvf
                                                    obtain ⟨k, hk⟩ := isErrB_true_inv hvf
                                                    unfold loadUseBrinForAllQueryTypes at e23
                                                    rw [loadField_present_err _ hs hk] at e23
                                                    exact Except.noConfusion e23
                                                  ·
                                                    by_cases heq24 : nm = "GRAPH_STORE_DISABLE_BLOCK_CACHE_FOR_LOOKUP"
                                                    · subst heq24
                                                      simp [varFails] at hvf
                                                      obtain ⟨k, hk⟩ := isErrB_true_inv hvf
                                                      unfold loadDisableBlockCacheForLookup at e24
                                                      rw [loadField_present_err _ hs hk] at e24
                                                      exact Except.noConfusion e24
                                                    ·
                                                      by_cases heq25 : nm = "GRAPH_STORE_LAST_ROLLUP_FROM_POI"
                                                      · subst heq25
                                                        simp [varFails] at hvf
                                                        obtain ⟨k, hk⟩ := isErrB_true_inv hvf
                                                        unfold loadLastRollupFromPoi at e25
                                                        rw [loadField_present_err _ hs hk] at e25
                                                        exact Except.noConfusion e25
                                                      ·
                                                        by_cases heq26 : nm = "GRAPH_STORE_INSERT_EXTRA_COLS"
                                                        · subst heq26
                                                          simp [varFails] at hvf
                                                          obtain ⟨k, hk⟩ := isErrB_true_inv hvf
                                                          unfold loadInsertExtraCols at e26
                                                          rw [loadField_present_err _ hs hk] at e26
                                                          exact Except.noConfusion e26
                                                        ·
                                                          by_cases heq27 : nm = "GRAPH_STORE_FDW_FETCH_SIZE"
                                                          · subst heq27
                                                            simp [varFails] at hvf
                                                            obtain ⟨k, hk⟩ := isErrB_true_inv hvf
                                                            unfold loadFdwFetchSize at e27
                                                            rw [loadField_present_err _ hs hk] at e27
                                                            exact Except.noConfusion e27
                                                          ·
                                                            simp [varFails, heq1, heq2, heq3, heq4, heq5, heq6, heq7, heq8, heq9, heq10, heq11, heq12, heq13, heq14, heq15, heq16, heq17, heq18, heq19, heq20, heq21, heq22, heq23, heq24, heq25, heq26, heq27] at hvf
    · exact ⟨e, hld⟩

set_option maxHeartbeats 2000000 in
theorem invalid_value_error_reporting_witness :
    (∃ e, InnerStore.load envBadThreshold = Except.error e) ∧
    (envBadThreshold "GRAPH_STORE_HISTORY_REBUILD_THRESHOLD" = some "1.5" ∧
      varFails "GRAPH_STORE_HISTORY_REBUILD_THRESHOLD" "1.5" = true) ∧
    (InnerStore.load envBadThreshold =
      Except.error ⟨"GRAPH_STORE_HISTORY_REBUILD_THRESHOLD", "1.5", ErrKind.outOfRange⟩) :=
  ⟨(invalid_value_error_reporting envBadThreshold).2
      "GRAPH_STORE_HISTORY_REBUILD_THRESHOLD" "1.5" (by decide) (by decide),
   ⟨by decide, by decide⟩, by decide⟩

end GraphEnv
